import Mathlib

/-!
The room-inference transaction of nekochan-tracker-server.

A shallow embedding of `main.go`.  The three SQL tables are lists of rows, a
handler is a function from the store before the request to an `Outcome`: the
store after the request, the webhook notifications dispatched (in order), the
HTTP response and how the transaction ended.

Modelling conventions
* Time is an integer number of microseconds; `now()` is constant inside a
  transaction (PostgreSQL) and is a parameter of the request.
* Every storage call can fail: `Faults` says, per call, whether the driver
  returns an error and with which text.
* PostgreSQL aborts a transaction block at the first failing statement: every
  later statement is rejected and `COMMIT` ends the block by rolling back.
  `main.go` ignores the error of `DELETE FROM lastPosition` and of
  `tx.Commit()`, so the model carries an `aborted` flag past those calls.
* `AVG(rssi)` is, in the database, the exact rational mean (PostgreSQL
  `numeric` keeps at least 16 significant digits of it); the Go field
  `AvgRssi float64` holds the nearest binary64 value, given as a rational.
* The third column of `beacon`, always written as `null` and never read, is
  left out of the row type.
* `json.Marshal` of a struct with one string field cannot fail, so the
  branches guarded by its error are not reachable and are not modelled.
-/

namespace Tracker

/-! ## Data model -/

/-- Constant `roomCount` of `main.go`. -/
def roomCount : Nat := 3

/-- One minute, in the time unit of the model (microseconds). -/
def minute : Int := 60000000

/-- Row of table `beacon`: `INSERT INTO beacon VALUES($1, $2, null, now())`. -/
structure Beacon where
  roomname : String
  rssi : Int
  created_at : Int
deriving DecidableEq, Repr

/-- Row of table `devices`. -/
structure DeviceRow where
  macAddress : String
  roomName : String
deriving DecidableEq, Repr

/-- Go struct `Device`. -/
structure Device where
  RoomName : String
deriving DecidableEq, Repr

/-- The database: tables `beacon`, `devices` and `lastPosition` (one column,
`roomname`). -/
structure Store where
  beacon : List Beacon
  devices : List DeviceRow
  lastPosition : List String
deriving DecidableEq, Repr

/-- Go struct `CalcLastPosition`; `AvgRssi` is a `float64`, given by its
rational value; `LastRoom` is a `sql.NullString`, with `none` for SQL `NULL`. -/
structure CalcLastPosition where
  RoomName : String
  AvgRssi : ℚ
  LastRoom : Option String
deriving DecidableEq, Repr

/-- Field `String` of a `sql.NullString`: the empty string when the value is
`NULL`. -/
def CalcLastPosition.LastRoomString (r : CalcLastPosition) : String :=
  r.LastRoom.getD ""

/-- Payload posted to a webhook: `NotifyBoot` goes to
`notifyBootStatusWebhookUrl`, `NotifyCat` to `notifyCatLocationWebhookUrl`. -/
inductive Notification where
  | NotifyBoot (RoomName : String)
  | NotifyCat (Text : String)
deriving DecidableEq, Repr

/-- Body of the HTTP response: nothing, `gin.H{"error": msg}`, or
`fmt.Sprintf(format, err)`. -/
inductive Body where
  | empty
  | json (error : String)
  | sprintf (format : String) (err : String)
deriving DecidableEq, Repr

/-- HTTP response of a handler; gin answers `200` when the handler sets
nothing. -/
structure Response where
  status : Nat
  body : Body
deriving DecidableEq, Repr

/-- How the transaction of a request ended. `commitFailed`: `tx.Commit()` was
called and the block ended with a rollback. -/
inductive TxEnd where
  | notBegun
  | committed
  | commitFailed
  | rolledBack
deriving DecidableEq, Repr

/-- Observable result of a request. -/
structure Outcome where
  store : Store
  posts : List Notification
  response : Response
  tx : TxEnd
deriving DecidableEq, Repr

/-- Error, if any, returned by each storage call of a request. -/
structure Faults where
  beginTx : Option String
  lock : Option String
  lookup : Option String
  deleteBeacon : Option String
  insertBeacon : Nat → Option String
  count : Option String
  select : Option String
  deleteLast : Option String
  insertLast : Option String
  commit : Option String

deriving instance DecidableEq for Except

/-- The faults `f` with other results for the two `lastPosition` statements
and the commit. -/
def Faults.withPosition (f : Faults) (deleteLast insertLast commit : Option String) :
    Faults :=
  ⟨f.beginTx, f.lock, f.lookup, f.deleteBeacon, f.insertBeacon, f.count, f.select,
    deleteLast, insertLast, commit⟩

/-- No storage call fails. -/
def noFaults : Faults :=
  ⟨none, none, none, none, fun _ => none, none, none, none, none, none⟩

/-! ## Request parsing (`main.go` 79-91) -/

/-- Go `strings.TrimRight(s, ",")`. -/
def trimRightComma (s : List Char) : List Char :=
  (s.reverse.dropWhile (fun c => c = ',')).reverse

/-- Go `strings.Split(s, ",")`: never empty, `[""]` for the empty string. -/
def splitComma : List Char → List (List Char)
  | [] => [[]]
  | c :: cs =>
    if c = ',' then [] :: splitComma cs
    else
      match splitComma cs with
      | [] => [[c]]
      | w :: ws => (c :: w) :: ws

/-- Loop of Go `strconv.ParseUint(s, 10, 64)` with `n` accumulated so far:
`none` on a byte that is not a decimal digit (syntax error); on overflow the
loop stops at once with `maxVal = 2^64 - 1` (range error), before any later
byte is looked at. -/
def parseUintLoop : List Char → Nat → Option Nat
  | [], n => some n
  | c :: cs, n =>
    if ¬ c.isDigit then none
    else if 1844674407370955162 ≤ n then some (2 ^ 64 - 1)
    else if 2 ^ 64 - 1 < n * 10 + (c.toNat - 48) then some (2 ^ 64 - 1)
    else parseUintLoop cs (n * 10 + (c.toNat - 48))

/-- Go `strconv.Atoi` with its error dropped (`rssiArray[i], _ = ...`), for a
64-bit `int`, as `ParseInt(s, 10, 0)` computes it (the fast path of `Atoi`
returns the same values): `0` on a syntax error, `MaxInt64` or `MinInt64` on a
range error. -/
def Atoi (s : List Char) : Int :=
  if s = [] then 0
  else
    let neg := s.head? = some '-'
    let ds := if s.head? = some '+' ∨ s.head? = some '-' then s.tail else s
    if ds = [] then 0
    else
      match parseUintLoop ds 0 with
      | none => 0
      | some un =>
        if ¬ neg ∧ 2 ^ 63 ≤ un then (2 ^ 63 - 1 : Int)
        else if neg ∧ 2 ^ 63 < un then (-(2 ^ 63) : Int)
        else if neg then -(un : Int)
        else (un : Int)

/-- Lines 80-91: the `rssi` query parameter as a list of integers. -/
def rssiArray (rssi : String) : List Int :=
  let rssiArrayRaw :=
    if rssi ≠ "" then splitComma (trimRightComma rssi.data) else []
  rssiArrayRaw.map Atoi

/-! ## SQL statements -/

/-- Query `SELECT roomName FROM devices WHERE macAddress = $1 LIMIT 1` scanned
into a `Device`: the driver error, `sql.ErrNoRows`, or the room. -/
def queryDevice (f : Faults) (s : Store) (macAddress : String) :
    Except String Device :=
  match f.lookup with
  | some e => .error e
  | none =>
    match s.devices.find? (fun d => d.macAddress = macAddress) with
    | none => .error "sql: no rows in result set"
    | some d => .ok ⟨d.roomName⟩

/-- Statement `DELETE FROM beacon WHERE roomname = $1`. -/
def deleteRoom (beacon : List Beacon) (roomname : String) : List Beacon :=
  beacon.filter (fun b => b.roomname ≠ roomname)

/-- Lines 131-147: one `INSERT INTO beacon VALUES($1, $2, null, now())` per
element, the `i`-th failing with `f.insertBeacon i`. -/
def insertLoop (f : Faults) (roomname : String) (now : Int) :
    Nat → List Int → List Beacon → Except String (List Beacon)
  | _, [], beacon => .ok beacon
  | i, x :: xs, beacon =>
    match f.insertBeacon i with
    | some e => .error e
    | none => insertLoop f roomname now (i + 1) xs (beacon ++ [⟨roomname, x, now⟩])

/-- Predicate `created_at >= (now() + '-1 minute') AND created_at <=
(now() + '+1 minute')`. -/
def inWindow (now : Int) (b : Beacon) : Bool :=
  decide (now - minute ≤ b.created_at) && decide (b.created_at ≤ now + minute)

/-- Lines 149-160: the number of rows of `SELECT count(*) FROM beacon WHERE
... GROUP BY roomname`, one row per distinct room with a reading in the
window. -/
def rowsRoomCount (now : Int) (beacon : List Beacon) : Nat :=
  (((beacon.filter (inWindow now)).map (fun b => b.roomname)).dedup).length

/-- Aggregate `AVG(rssi)` of the group `roomname`, in the database. -/
def avgRssi (beacon : List Beacon) (roomname : String) : ℚ :=
  let g : List Int :=
    (beacon.filter (fun b => b.roomname = roomname)).map (fun b => b.rssi)
  ((g.sum : Int) : ℚ) / (g.length : ℚ)

/-- The groups of `SELECT roomname, AVG(rssi) FROM beacon GROUP BY roomname`. -/
def groupByRoomname (beacon : List Beacon) : List (String × ℚ) :=
  ((beacon.map (fun b => b.roomname)).dedup).map (fun r => (r, avgRssi beacon r))

/-- Clause `ORDER BY avgRssi DESC LIMIT 1`. PostgreSQL leaves the order of
equal averages unspecified; the model returns the first greatest group. -/
def orderByAvgDescLimit1 : List (String × ℚ) → Option (String × ℚ)
  | [] => none
  | g :: gs =>
    match orderByAvgDescLimit1 gs with
    | none => some g
    | some m => if m.2 ≤ g.2 then some g else some m

/-- Nearest integer to `n / d` for `0 < d`, a tie going to the even one. -/
def roundHalfEven (n d : Nat) : Nat :=
  if 2 * (n % d) < d then n / d
  else if d < 2 * (n % d) then n / d + 1
  else if (n / d) % 2 = 0 then n / d
  else n / d + 1

/-- Loop of `floorLog2`, with enough fuel. -/
def floorLog2Loop : Nat → Nat → Nat
  | 0, _ => 0
  | fuel + 1, n => if n < 2 then 0 else floorLog2Loop fuel (n / 2) + 1

/-- Greatest `k` with `2^k ≤ n`, for `0 < n`. -/
def floorLog2 (n : Nat) : Nat :=
  floorLog2Loop n n

/-- Nearest value with a 53-bit significand to `n / d` for `0 < n`, `0 < d`:
the exponent `e` has `2^52 ≤ (n / d) / 2^e < 2^53`, the significand is rounded
to nearest, ties to even. -/
def roundBinary53 (n d : Nat) : ℚ :=
  let e0 : Int := (floorLog2 n : Int) - (floorLog2 d : Int) - 52
  let e : Int :=
    if n * 2 ^ (-e0).toNat < d * 2 ^ e0.toNat * 2 ^ 52 then e0 - 1 else e0
  let m := roundHalfEven (n * 2 ^ (-e).toNat) (d * 2 ^ e.toNat)
  (m : ℚ) * 2 ^ e.toNat / 2 ^ (-e).toNat

/-- Scan of a `numeric` into a Go `float64` (`AvgRssi float64`): the nearest
binary64 value, given as a rational. The exponent range of binary64 is not
modelled: a mean of 64-bit readings stays inside it. -/
def toFloat64 (q : ℚ) : ℚ :=
  if q = 0 then 0
  else if q < 0 then -roundBinary53 q.num.natAbs q.den
  else roundBinary53 q.num.natAbs q.den

/-- Line 168: `SELECT roomname, AVG(rssi) as avgRssi, (SELECT roomname FROM
lastPosition LIMIT 1) as lastroom FROM beacon GROUP BY roomname ORDER BY
avgRssi DESC LIMIT 1` scanned into a `CalcLastPosition`; `none` when the query
has no row. The order is that of the averages in the database, the scanned
`AvgRssi` is a `float64`. -/
def queryCalcLastPosition (beacon : List Beacon) (lastPosition : List String) :
    Option CalcLastPosition :=
  match orderByAvgDescLimit1 (groupByRoomname beacon) with
  | none => none
  | some g => some ⟨g.1, toFloat64 g.2, lastPosition.head?⟩

/-! ## Transaction endings -/

/-- Error of a statement run in a transaction: the block being aborted, every
statement is rejected. -/
def execErr (aborted : Bool) (fault : Option String) : Option String :=
  if aborted then
    some "pq: current transaction is aborted, commands ignored until end of transaction block"
  else fault

/-- Path `tx.Rollback(); c.String(...)`/`c.JSON(...); return`: the store is
the one before the request. -/
def rollback (s : Store) (posts : List Notification) (body : Body) : Outcome :=
  ⟨s, posts, ⟨500, body⟩, .rolledBack⟩

/-- Call `tx.Commit()` (its error is ignored) at the end of the handler: the
store becomes `t` when the commit succeeds and stays `s` otherwise. -/
def commit (f : Faults) (aborted : Bool) (s t : Store)
    (posts : List Notification) : Outcome :=
  match execErr aborted f.commit with
  | none => ⟨t, posts, ⟨200, .empty⟩, .committed⟩
  | some _ => ⟨s, posts, ⟨200, .empty⟩, .commitFailed⟩

/-! ## Handlers -/

/-- Handler `notifyBootStatusFunc` (lines 40-60). -/
def notifyBootStatusFunc (f : Faults) (s : Store) (macAddress : String) : Outcome :=
  match queryDevice f s macAddress with
  | .error e => ⟨s, [], ⟨400, .json e⟩, .notBegun⟩
  | .ok device => ⟨s, [.NotifyBoot device.RoomName], ⟨200, .empty⟩, .notBegun⟩

/-- Lines 131-147 of `updateBeaconFunc`: the inserts of the readings, or of
the single reading `-9999` when `rssiArray` is empty. -/
def insertReadings (f : Faults) (roomname : String) (now : Int)
    (rssiArray : List Int) (beacon : List Beacon) : Except String (List Beacon) :=
  if rssiArray.length ≠ 0 then insertLoop f roomname now 0 rssiArray beacon
  else
    match f.insertBeacon 0 with
    | some e => .error e
    | none => .ok (beacon ++ [⟨roomname, -9999, now⟩])

/-- Lines 79-147 of `updateBeaconFunc`: parameters, `db.Begin()`, the table
lock, the device lookup and the delete-and-insert step. `.error o`: the
handler returned `o`; `.ok (device, beacon)`: it goes on to the count with
table `beacon` holding `beacon`. -/
def ingestReadings (f : Faults) (now : Int) (s : Store) (macAddress rssi : String) :
    Except Outcome (Device × List Beacon) :=
  if macAddress = "" then .error ⟨s, [], ⟨400, .empty⟩, .notBegun⟩
  else
    match f.beginTx with
    | some e => .error ⟨s, [], ⟨500, .json e⟩, .notBegun⟩
    | none =>
      match f.lock with
      | some e => .error (rollback s [] (.sprintf "Error lock db: %q" e))
      | none =>
        match queryDevice f s macAddress with
        | .error e => .error (rollback s [] (.json e))
        | .ok device =>
          match f.deleteBeacon with
          | some e => .error (rollback s [] (.sprintf "Error clean beacon database: %q" e))
          | none =>
            match insertReadings f device.RoomName now (rssiArray rssi)
                (deleteRoom s.beacon device.RoomName) with
            | .error e => .error (rollback s [] (.sprintf "Error insert beacon table: %q" e))
            | .ok beacon => .ok (device, beacon)

/-- Lines 167-207 of `updateBeaconFunc`: the decision, with table `beacon`
holding `beacon`. `FormatFloat` stands for
`strconv.FormatFloat(x, 'f', -1, 64)`. -/
def decisionStep (FormatFloat : ℚ → String) (f : Faults) (s : Store)
    (beacon : List Beacon) : Outcome :=
  match f.select with
  | some e => rollback s [] (.sprintf "Error fetch last position: %q" e)
  | none =>
    match queryCalcLastPosition beacon s.lastPosition with
    | none => rollback s [] (.sprintf "Error fetch last position: %q" "sql: no rows in result set")
    | some result =>
      if result.AvgRssi = -9999 then
        if result.LastRoomString ≠ "" then
          let posts := [Notification.NotifyCat
            ("ﾈｺﾁｬﾝを見失いました…\n最後にいた場所: " ++ result.LastRoomString)]
          match f.deleteLast with
          | some _ => commit f true s ⟨beacon, s.devices, s.lastPosition⟩ posts
          | none => commit f false s ⟨beacon, s.devices, []⟩ posts
        else commit f false s ⟨beacon, s.devices, s.lastPosition⟩ []
      else if result.RoomName ≠ result.LastRoomString then
        let action :=
          if result.LastRoomString = "" then "見つかりました" else "移動しました"
        let posts := [Notification.NotifyCat
          ("ﾈｺﾁｬﾝが" ++ action ++ ": " ++ result.RoomName ++ "\nRSSI平均値: "
            ++ FormatFloat result.AvgRssi)]
        let aborted := f.deleteLast.isSome
        match execErr aborted f.insertLast with
        | some e => rollback s posts (.sprintf "Error insert lastPosition: %q" e)
        | none => commit f aborted s ⟨beacon, s.devices, [] ++ [result.RoomName]⟩ posts
      else commit f false s ⟨beacon, s.devices, s.lastPosition⟩ []

/-- Lines 149-207 of `updateBeaconFunc`: the count of the rooms that reported
in the window, then the decision. -/
def countStep (FormatFloat : ℚ → String) (f : Faults) (now : Int) (s : Store)
    (beacon : List Beacon) : Outcome :=
  match f.count with
  | some e => rollback s [] (.sprintf "Error fetch roomName count: %q" e)
  | none =>
    if rowsRoomCount now beacon ≠ roomCount then
      commit f false s ⟨beacon, s.devices, s.lastPosition⟩ []
    else decisionStep FormatFloat f s beacon

/-- Handler `updateBeaconFunc` (lines 77-209). -/
def updateBeaconFunc (FormatFloat : ℚ → String) (f : Faults) (now : Int) (s : Store)
    (macAddress rssi : String) : Outcome :=
  match ingestReadings f now s macAddress rssi with
  | .error o => o
  | .ok (_, beacon) => countStep FormatFloat f now s beacon

/-! ## Example data -/

/-- A device directory with four rooms. -/
def exDevices : List DeviceRow :=
  [⟨"m1", "A"⟩, ⟨"m2", "B"⟩, ⟨"m3", "C"⟩, ⟨"m4", "D"⟩]

/-- A stand-in for `strconv.FormatFloat` in the examples. -/
def exFormat (q : ℚ) : String :=
  if q.den = 1 then "integer" else "fraction"

/-- Only room A has reported. -/
def exOneRoom : Store := ⟨[⟨"A", -50, 0⟩], exDevices, []⟩

/-- Room A has two readings one second old, room B one reading a minute and
one microsecond old, room C an older reading, at the time `100000000`. -/
def exStaleRoom : Store :=
  ⟨[⟨"A", -50, 99000000⟩, ⟨"A", -60, 99000000⟩, ⟨"B", -70, 39999999⟩,
    ⟨"C", -40, 50000000⟩], exDevices, []⟩

/-- Rooms A and B have reported, no last position. -/
def exTwoRooms : Store :=
  ⟨[⟨"A", -50, 0⟩, ⟨"A", -60, 0⟩, ⟨"B", -70, 0⟩], exDevices, []⟩

/-- Rooms A and B have reported, the last position is A. -/
def exTwoRoomsAtA : Store :=
  ⟨[⟨"A", -50, 0⟩, ⟨"A", -60, 0⟩, ⟨"B", -70, 0⟩], exDevices, ["A"]⟩

/-- Rooms A, B and C have reported. -/
def exThreeRooms : Store :=
  ⟨[⟨"A", -50, 0⟩, ⟨"B", -70, 0⟩, ⟨"C", -70, 0⟩], exDevices, []⟩

/-- Rooms A and B have reported no signal, the last position is A. -/
def exNoSignal : Store :=
  ⟨[⟨"A", -9999, 0⟩, ⟨"B", -9999, 0⟩], exDevices, ["A"]⟩

/-- Rooms A and B have reported, the last position is B. -/
def exTwoRoomsAtB : Store :=
  ⟨[⟨"A", -50, 0⟩, ⟨"A", -60, 0⟩, ⟨"B", -70, 0⟩], exDevices, ["B"]⟩

/-- Rooms A and B have reported, `lastPosition` holds one row whose room name
is empty. -/
def exTwoRoomsUnnamedPrior : Store :=
  ⟨[⟨"A", -50, 0⟩, ⟨"A", -60, 0⟩, ⟨"B", -70, 0⟩], exDevices, [""]⟩

/-- A directory in which device `m0` is assigned a room with an empty name;
that room and room A have reported, no last position. -/
def exUnnamedRoom : Store :=
  ⟨[⟨"", -10, 0⟩, ⟨"A", -50, 0⟩], [⟨"m0", ""⟩, ⟨"m1", "A"⟩, ⟨"m2", "B"⟩], []⟩

/-- Rooms A and B have reported no signal, `lastPosition` holds one row whose
room name is empty. -/
def exNoSignalUnnamedPrior : Store :=
  ⟨[⟨"A", -9999, 0⟩, ⟨"B", -9999, 0⟩], exDevices, [""]⟩

/-- Room A has reported `-50`, `-50` and `-51`, room B `-70`. -/
def exThirds : Store :=
  ⟨[⟨"A", -50, 0⟩, ⟨"A", -50, 0⟩, ⟨"A", -51, 0⟩, ⟨"B", -70, 0⟩], exDevices, []⟩

/-- The delete of `lastPosition` fails, every other call succeeds. -/
def exDeleteLastFails : Faults :=
  noFaults.withPosition (some "pq: deadlock detected") none none

/-- The insert into `lastPosition` fails, every other call succeeds. -/
def exInsertLastFails : Faults :=
  noFaults.withPosition none (some "pq: could not extend file") none

/-! ## Frame lemmas -/

theorem commit_posts (f : Faults) (aborted : Bool) (s t : Store)
    (posts : List Notification) : (commit f aborted s t posts).posts = posts := by
  unfold commit
  split <;> rfl

theorem commit_response (f : Faults) (aborted : Bool) (s t : Store)
    (posts : List Notification) :
    (commit f aborted s t posts).response = ⟨200, .empty⟩ := by
  unfold commit
  split <;> rfl

theorem commit_tx (f : Faults) (aborted : Bool) (s t : Store)
    (posts : List Notification) :
    (commit f aborted s t posts).tx = .committed ∨
      (commit f aborted s t posts).tx = .commitFailed := by
  unfold commit
  split
  · exact Or.inl rfl
  · exact Or.inr rfl

theorem commit_ok (f : Faults) (s t : Store) (posts : List Notification)
    (h : f.commit = none) :
    commit f false s t posts = ⟨t, posts, ⟨200, .empty⟩, .committed⟩ := by
  simp [commit, execErr, h]

theorem commit_lastPosition (f : Faults) (aborted : Bool) (s t : Store)
    (posts : List Notification) :
    (commit f aborted s t posts).store.lastPosition = t.lastPosition ∨
      (commit f aborted s t posts).store.lastPosition = s.lastPosition := by
  unfold commit
  split
  · exact Or.inl rfl
  · exact Or.inr rfl

/-- Outcome of a request whose count of rooms differs from `roomCount`. -/
theorem countStep_ne (FormatFloat : ℚ → String) (f : Faults) (now : Int) (s : Store)
    (beacon : List Beacon) (hcount : f.count = none)
    (hne : rowsRoomCount now beacon ≠ roomCount) :
    countStep FormatFloat f now s beacon =
      commit f false s ⟨beacon, s.devices, s.lastPosition⟩ [] := by
  simp [countStep, hcount, hne]

/-- Outcome of a request that reaches the decision with result `result`. -/
theorem update_decision (FormatFloat : ℚ → String) (f : Faults) (now : Int) (s : Store)
    (macAddress rssi : String) (device : Device) (beacon : List Beacon)
    (hin : ingestReadings f now s macAddress rssi = .ok (device, beacon))
    (hcount : f.count = none) (hall : rowsRoomCount now beacon = roomCount) :
    updateBeaconFunc FormatFloat f now s macAddress rssi =
      decisionStep FormatFloat f s beacon := by
  simp [updateBeaconFunc, hin, countStep, hcount, hall]

/-- Notifications of a decision that finds a transition. -/
theorem decisionStep_transition_posts (FormatFloat : ℚ → String) (f : Faults)
    (s : Store) (beacon : List Beacon) (result : CalcLastPosition)
    (hsel : f.select = none)
    (hres : queryCalcLastPosition beacon s.lastPosition = some result)
    (havg : result.AvgRssi ≠ -9999)
    (hne : result.RoomName ≠ result.LastRoomString) :
    (decisionStep FormatFloat f s beacon).posts =
      [.NotifyCat ("ﾈｺﾁｬﾝが"
        ++ (if result.LastRoomString = "" then "見つかりました" else "移動しました")
        ++ ": " ++ result.RoomName ++ "\nRSSI平均値: " ++ FormatFloat result.AvgRssi)] := by
  unfold decisionStep
  rw [hsel]
  simp only [hres]
  rw [if_neg havg, if_pos hne]
  split
  · rfl
  · exact commit_posts _ _ _ _ _

/-- The subquery `(SELECT roomname FROM lastPosition LIMIT 1)` of the result. -/
theorem queryCalcLastPosition_lastRoom (beacon : List Beacon) (lastPosition : List String)
    (result : CalcLastPosition)
    (hres : queryCalcLastPosition beacon lastPosition = some result) :
    result.LastRoom = lastPosition.head? := by
  unfold queryCalcLastPosition at hres
  split at hres
  · cases hres
  · cases hres
    rfl

/-- A handler that returns during the ingest leaves the store as it was and
dispatches nothing. -/
theorem ingest_error_frame (f : Faults) (now : Int) (s : Store)
    (macAddress rssi : String) (o : Outcome)
    (h : ingestReadings f now s macAddress rssi = .error o) :
    o.store = s ∧ o.posts = [] ∧ o.tx ≠ .committed ∧ o.tx ≠ .commitFailed := by
  unfold ingestReadings at h
  repeat' split at h
  all_goals first
    | (cases h; done)
    | (cases h; simp [rollback])

/-- The decision leaves in `lastPosition` what was there, nothing, or one row. -/
theorem decisionStep_lastPosition (FormatFloat : ℚ → String) (f : Faults) (s : Store)
    (beacon : List Beacon) :
    (decisionStep FormatFloat f s beacon).store.lastPosition = s.lastPosition ∨
    (decisionStep FormatFloat f s beacon).store.lastPosition = [] ∨
    ∃ r, (decisionStep FormatFloat f s beacon).store.lastPosition = [r] := by
  simp only [decisionStep]
  repeat' split
  all_goals first
    | exact Or.inl rfl
    | (unfold commit; split <;> simp)

/-- The insert loop appends one row per reading. -/
theorem insertLoop_ok (f : Faults) (roomname : String) (now : Int) :
    ∀ (xs : List Int) (i : Nat) (beacon out : List Beacon),
      insertLoop f roomname now i xs beacon = .ok out →
      out = beacon ++ xs.map (fun x => ⟨roomname, x, now⟩)
  | [], _, beacon, out, h => by
    simp only [insertLoop] at h
    cases h
    simp
  | x :: xs, i, beacon, out, h => by
    simp only [insertLoop] at h
    split at h
    · cases h
    · rw [insertLoop_ok f roomname now xs (i + 1) _ out h]
      simp

/-- The insert step leaves at least one row in `beacon`. -/
theorem insertReadings_ne_nil (f : Faults) (roomname : String) (now : Int)
    (xs : List Int) (beacon out : List Beacon)
    (h : insertReadings f roomname now xs beacon = .ok out) : out ≠ [] := by
  unfold insertReadings at h
  split at h
  · next hlen =>
    rw [insertLoop_ok f roomname now xs 0 beacon out h]
    cases xs with
    | nil => simp at hlen
    | cons x xs => simp
  · split at h
    · cases h
    · cases h
      simp

/-- Table `beacon` is not empty when the handler reaches the count. -/
theorem ingest_ok_ne_nil (f : Faults) (now : Int) (s : Store)
    (macAddress rssi : String) (device : Device) (beacon : List Beacon)
    (h : ingestReadings f now s macAddress rssi = .ok (device, beacon)) :
    beacon ≠ [] := by
  unfold ingestReadings at h
  repeat' split at h
  all_goals first
    | (cases h; done)
    | skip
  next hins =>
    cases h
    exact insertReadings_ne_nil _ _ _ _ _ _ hins

/-- Every storage call before the inserts has succeeded when the handler
reaches the count. -/
theorem ingest_ok_faults (f : Faults) (now : Int) (s : Store)
    (macAddress rssi : String) (device : Device) (beacon : List Beacon)
    (h : ingestReadings f now s macAddress rssi = .ok (device, beacon)) :
    f.beginTx = none ∧ f.lock = none ∧ f.lookup = none ∧ f.deleteBeacon = none := by
  unfold ingestReadings at h
  by_cases hm : macAddress = ""
  · simp [hm] at h
  · cases hb : f.beginTx with
    | some e => simp [hm, hb] at h
    | none =>
      cases hl : f.lock with
      | some e => simp [hm, hb, hl] at h
      | none =>
        cases hk : f.lookup with
        | some e => simp [hm, hb, hl, queryDevice, hk] at h
        | none =>
          cases hd : f.deleteBeacon with
          | some e =>
            simp only [hm, hb, hl, hd, if_false] at h
            split at h <;> cases h
          | none => exact ⟨rfl, rfl, rfl, rfl⟩

/-- Aggregate `AVG(rssi)` written out: the sum of the readings of the room
over their number. -/
theorem avgRssi_eq (beacon : List Beacon) (roomname : String) :
    avgRssi beacon roomname =
      ((((beacon.filter (fun x => x.roomname = roomname)).map
          (fun x => x.rssi)).sum : Int) : ℚ) /
        (((beacon.filter (fun x => x.roomname = roomname)).map
          (fun x => x.rssi)).length : ℚ) :=
  rfl

/-- Clause `ORDER BY avgRssi DESC LIMIT 1` returns a group whose average is
the greatest. -/
theorem orderByAvgDescLimit1_greatest :
    ∀ (l : List (String × ℚ)), l ≠ [] →
      ∃ m, orderByAvgDescLimit1 l = some m ∧ m ∈ l ∧ ∀ g ∈ l, g.2 ≤ m.2
  | [], h => absurd rfl h
  | g :: gs, _ => by
    by_cases hgs : gs = []
    · subst hgs
      exact ⟨g, by simp [orderByAvgDescLimit1], by simp, by simp⟩
    · obtain ⟨m, hm, hmem, hmax⟩ := orderByAvgDescLimit1_greatest gs hgs
      by_cases hle : m.2 ≤ g.2
      · refine ⟨g, by simp [orderByAvgDescLimit1, hm, hle], by simp, ?_⟩
        intro x hx
        rcases List.mem_cons.mp hx with rfl | hx
        · exact le_refl _
        · exact le_trans (hmax x hx) hle
      · refine ⟨m, by simp [orderByAvgDescLimit1, hm, hle], List.mem_cons_of_mem _ hmem, ?_⟩
        intro x hx
        rcases List.mem_cons.mp hx with rfl | hx
        · exact le_of_lt (not_le.mp hle)
        · exact hmax x hx

/-- The insert loop reads only the insert faults. -/
theorem insertLoop_withPosition (f : Faults) (d i c : Option String)
    (roomname : String) (now : Int) :
    ∀ (xs : List Int) (k : Nat) (beacon : List Beacon),
      insertLoop (f.withPosition d i c) roomname now k xs beacon =
        insertLoop f roomname now k xs beacon
  | [], _, _ => rfl
  | x :: xs, k, beacon => by
    simp only [insertLoop]
    have hk : (f.withPosition d i c).insertBeacon k = f.insertBeacon k := rfl
    rw [hk]
    split
    · rfl
    · exact insertLoop_withPosition f d i c roomname now xs (k + 1) _

/-- The ingest does not depend on the faults of the `lastPosition` statements
and of the commit. -/
theorem ingestReadings_withPosition (f : Faults) (d i c : Option String)
    (now : Int) (s : Store) (macAddress rssi : String) :
    ingestReadings (f.withPosition d i c) now s macAddress rssi =
      ingestReadings f now s macAddress rssi := by
  have hins : ∀ r xs b, insertReadings (f.withPosition d i c) r now xs b =
      insertReadings f r now xs b := by
    intro r xs b
    unfold insertReadings
    rw [insertLoop_withPosition]
    rfl
  have hq : queryDevice (f.withPosition d i c) s macAddress = queryDevice f s macAddress := rfl
  unfold ingestReadings
  simp only [hins, hq]
  rfl

/-- The notifications of the decision are fixed before the `lastPosition`
statements and the commit run. -/
theorem decisionStep_posts_withPosition (FormatFloat : ℚ → String) (f : Faults)
    (d i c : Option String) (s : Store) (beacon : List Beacon) :
    (decisionStep FormatFloat (f.withPosition d i c) s beacon).posts =
      (decisionStep FormatFloat f s beacon).posts := by
  have hs : (f.withPosition d i c).select = f.select := rfl
  simp only [decisionStep, hs]
  repeat' split
  all_goals first
    | rfl
    | simp [commit_posts, rollback]

/-- A transition whose `lastPosition` delete or insert fails is rolled back. -/
theorem decisionStep_transition_fails (FormatFloat : ℚ → String) (f : Faults)
    (s : Store) (beacon : List Beacon) (result : CalcLastPosition)
    (hsel : f.select = none)
    (hres : queryCalcLastPosition beacon s.lastPosition = some result)
    (havg : result.AvgRssi ≠ -9999)
    (hne : result.RoomName ≠ result.LastRoomString)
    (hfail : f.deleteLast ≠ none ∨ f.insertLast ≠ none) :
    (decisionStep FormatFloat f s beacon).tx = .rolledBack ∧
    (decisionStep FormatFloat f s beacon).store = s ∧
    (decisionStep FormatFloat f s beacon).response.status = 500 := by
  have herr : ∃ e, execErr f.deleteLast.isSome f.insertLast = some e := by
    unfold execErr
    cases hd : f.deleteLast with
    | some e => simp
    | none =>
      cases hi : f.insertLast with
      | some e => simp
      | none => simp [hd, hi] at hfail
  obtain ⟨e, he⟩ := herr
  simp [decisionStep, hsel, hres, havg, hne, he, rollback]

/-- A "lost" decision whose `lastPosition` delete or commit fails leaves the
store as it was. -/
theorem decisionStep_lost_fails (FormatFloat : ℚ → String) (f : Faults)
    (s : Store) (beacon : List Beacon) (result : CalcLastPosition)
    (hsel : f.select = none)
    (hres : queryCalcLastPosition beacon s.lastPosition = some result)
    (havg : result.AvgRssi = -9999)
    (hprior : result.LastRoomString ≠ "")
    (hfail : f.deleteLast ≠ none ∨ f.commit ≠ none) :
    (decisionStep FormatFloat f s beacon).tx = .commitFailed ∧
    (decisionStep FormatFloat f s beacon).store = s := by
  unfold decisionStep
  rw [hsel]
  simp only [hres]
  rw [if_pos havg, if_pos hprior]
  cases hd : f.deleteLast with
  | some e => simp [commit, execErr]
  | none =>
    cases hc : f.commit with
    | some e => simp [commit, execErr, hc]
    | none => simp [hd, hc] at hfail

/-- A decision that dispatches a notification is a "lost" one with a prior
room or a transition. -/
theorem decisionStep_posts_ne_nil (FormatFloat : ℚ → String) (f : Faults)
    (s : Store) (beacon : List Beacon) (result : CalcLastPosition)
    (hres : queryCalcLastPosition beacon s.lastPosition = some result)
    (h : (decisionStep FormatFloat f s beacon).posts ≠ []) :
    (result.AvgRssi = -9999 → result.LastRoomString ≠ "") ∧
    (result.AvgRssi ≠ -9999 → result.RoomName ≠ result.LastRoomString) := by
  unfold decisionStep at h
  split at h
  · exact absurd rfl h
  · simp only [hres] at h
    constructor
    · intro havg hl
      rw [if_pos havg, if_neg (not_not.mpr hl)] at h
      exact h (commit_posts _ _ _ _ _)
    · intro havg hl
      rw [if_neg havg, if_neg (not_not.mpr hl)] at h
      exact h (commit_posts _ _ _ _ _)

/-! ## Waiting for a full round (C1, C10) -/

/-- C1: when, after the delete-and-insert step, fewer than `roomCount` distinct
rooms have a reading in the one-minute window, `updateBeaconFunc` dispatches no
notification, leaves `lastPosition` as it was and, the count query having
run, ends with `tx.Commit()` and the default response; when the commit
succeeds the new readings are stored. -/
theorem too_few_rooms_commits_unchanged (FormatFloat : ℚ → String) (f : Faults)
    (now : Int) (s : Store) (macAddress rssi : String) (device : Device)
    (beacon : List Beacon)
    (hin : ingestReadings f now s macAddress rssi = .ok (device, beacon))
    (hcount : f.count = none)
    (hlt : rowsRoomCount now beacon < roomCount) :
    (updateBeaconFunc FormatFloat f now s macAddress rssi).posts = [] ∧
    (updateBeaconFunc FormatFloat f now s macAddress rssi).store.lastPosition
      = s.lastPosition ∧
    (updateBeaconFunc FormatFloat f now s macAddress rssi).response = ⟨200, .empty⟩ ∧
    ((updateBeaconFunc FormatFloat f now s macAddress rssi).tx = .committed ∨
      (updateBeaconFunc FormatFloat f now s macAddress rssi).tx = .commitFailed) ∧
    (f.commit = none →
      updateBeaconFunc FormatFloat f now s macAddress rssi =
        ⟨⟨beacon, s.devices, s.lastPosition⟩, [], ⟨200, .empty⟩, .committed⟩) := by
  have h : updateBeaconFunc FormatFloat f now s macAddress rssi =
      commit f false s ⟨beacon, s.devices, s.lastPosition⟩ [] := by
    simp only [updateBeaconFunc, hin]
    exact countStep_ne FormatFloat f now s beacon hcount (Nat.ne_of_lt hlt)
  rw [h]
  refine ⟨commit_posts _ _ _ _ _, ?_, commit_response _ _ _ _ _, commit_tx _ _ _ _ _, ?_⟩
  · rcases commit_lastPosition f false s ⟨beacon, s.devices, s.lastPosition⟩ [] with h1 | h1
    · exact h1
    · exact h1
  · intro hc
    exact commit_ok f s _ [] hc

/-- C10: when, after the delete-and-insert step, more than `roomCount` distinct
rooms have a reading in the window, `updateBeaconFunc` behaves as with too few
rooms: no notification, `lastPosition` as it was, `tx.Commit()` and the
default response. -/
theorem too_many_rooms_commits_unchanged (FormatFloat : ℚ → String) (f : Faults)
    (now : Int) (s : Store) (macAddress rssi : String) (device : Device)
    (beacon : List Beacon)
    (hin : ingestReadings f now s macAddress rssi = .ok (device, beacon))
    (hcount : f.count = none)
    (hgt : roomCount < rowsRoomCount now beacon) :
    roomCount = 3 ∧
    (updateBeaconFunc FormatFloat f now s macAddress rssi).posts = [] ∧
    (updateBeaconFunc FormatFloat f now s macAddress rssi).store.lastPosition
      = s.lastPosition ∧
    (updateBeaconFunc FormatFloat f now s macAddress rssi).response = ⟨200, .empty⟩ ∧
    ((updateBeaconFunc FormatFloat f now s macAddress rssi).tx = .committed ∨
      (updateBeaconFunc FormatFloat f now s macAddress rssi).tx = .commitFailed) ∧
    (f.commit = none →
      updateBeaconFunc FormatFloat f now s macAddress rssi =
        ⟨⟨beacon, s.devices, s.lastPosition⟩, [], ⟨200, .empty⟩, .committed⟩) := by
  have h : updateBeaconFunc FormatFloat f now s macAddress rssi =
      commit f false s ⟨beacon, s.devices, s.lastPosition⟩ [] := by
    simp only [updateBeaconFunc, hin]
    exact countStep_ne FormatFloat f now s beacon hcount (Nat.ne_of_gt hgt)
  rw [h]
  refine ⟨rfl, commit_posts _ _ _ _ _, ?_, commit_response _ _ _ _ _,
    commit_tx _ _ _ _ _, ?_⟩
  · rcases commit_lastPosition f false s ⟨beacon, s.devices, s.lastPosition⟩ [] with h1 | h1
    · exact h1
    · exact h1
  · intro hc
    exact commit_ok f s _ [] hc

/-! ## The decision (C2, C3, C4) -/

/-- C2, counterexample. First run: `lastPosition` holds a row, with an empty
room name, room A wins with average `-55`, and the notification is the "found"
text, not the "moved" one. Second run: no `lastPosition` row, the room with
the empty name wins with average `-10`, and no notification is dispatched nor
any row written. -/
theorem unnamed_room_breaks_transition_rule :
    (exTwoRoomsUnnamedPrior.lastPosition = [""] ∧
      queryCalcLastPosition
        [⟨"A", -50, 0⟩, ⟨"A", -60, 0⟩, ⟨"B", -70, 0⟩, ⟨"C", -80, 10⟩, ⟨"C", -90, 10⟩] [""]
        = some ⟨"A", -55, some ""⟩ ∧
      updateBeaconFunc exFormat noFaults 10 exTwoRoomsUnnamedPrior "m3" "-80,-90" =
        ⟨⟨[⟨"A", -50, 0⟩, ⟨"A", -60, 0⟩, ⟨"B", -70, 0⟩, ⟨"C", -80, 10⟩, ⟨"C", -90, 10⟩],
            exDevices, ["A"]⟩,
          [.NotifyCat "ﾈｺﾁｬﾝが見つかりました: A\nRSSI平均値: integer"],
          ⟨200, .empty⟩, .committed⟩) ∧
    (exUnnamedRoom.lastPosition = [] ∧
      rowsRoomCount 10 [⟨"", -10, 0⟩, ⟨"A", -50, 0⟩, ⟨"B", -70, 10⟩] = roomCount ∧
      queryCalcLastPosition [⟨"", -10, 0⟩, ⟨"A", -50, 0⟩, ⟨"B", -70, 10⟩] []
        = some ⟨"", -10, none⟩ ∧
      updateBeaconFunc exFormat noFaults 10 exUnnamedRoom "m2" "-70" =
        ⟨⟨[⟨"", -10, 0⟩, ⟨"A", -50, 0⟩, ⟨"B", -70, 10⟩], exUnnamedRoom.devices, []⟩,
          [], ⟨200, .empty⟩, .committed⟩) := by
  decide!

/-- C2, amended: a request that reaches the decision with a winning average
other than `-9999` and a winning room different from the prior room name (the
room name of the first `lastPosition` row, the empty string when there is no
row) dispatches exactly one notification naming the winning room and its
average: the "found" text when `lastPosition` has no row or a row with an
empty name, the "moved" text when its row has a non-empty name. When the
`lastPosition` statements and the commit succeed, `lastPosition` holds exactly
the winning room; when the delete or the insert fails, the transaction is
rolled back and the answer is `500`. -/
theorem transition_notifies_and_records (FormatFloat : ℚ → String) (f : Faults)
    (now : Int) (s : Store) (macAddress rssi : String) (device : Device)
    (beacon : List Beacon) (result : CalcLastPosition)
    (hin : ingestReadings f now s macAddress rssi = .ok (device, beacon))
    (hcount : f.count = none) (hall : rowsRoomCount now beacon = roomCount)
    (hsel : f.select = none)
    (hres : queryCalcLastPosition beacon s.lastPosition = some result)
    (havg : result.AvgRssi ≠ -9999)
    (hne : result.RoomName ≠ s.lastPosition.head?.getD "") :
    ((s.lastPosition.head? = none ∨ s.lastPosition.head? = some "") →
      (updateBeaconFunc FormatFloat f now s macAddress rssi).posts =
        [.NotifyCat ("ﾈｺﾁｬﾝが見つかりました: " ++ result.RoomName ++ "\nRSSI平均値: "
          ++ FormatFloat result.AvgRssi)]) ∧
    (∀ prior : String, s.lastPosition.head? = some prior → prior ≠ "" →
      (updateBeaconFunc FormatFloat f now s macAddress rssi).posts =
        [.NotifyCat ("ﾈｺﾁｬﾝが移動しました: " ++ result.RoomName ++ "\nRSSI平均値: "
          ++ FormatFloat result.AvgRssi)]) ∧
    (f.deleteLast = none → f.insertLast = none → f.commit = none →
      (updateBeaconFunc FormatFloat f now s macAddress rssi).tx = .committed ∧
      (updateBeaconFunc FormatFloat f now s macAddress rssi).store.lastPosition
        = [result.RoomName]) ∧
    ((f.deleteLast ≠ none ∨ f.insertLast ≠ none) →
      (updateBeaconFunc FormatFloat f now s macAddress rssi).tx = .rolledBack ∧
      (updateBeaconFunc FormatFloat f now s macAddress rssi).store = s ∧
      (updateBeaconFunc FormatFloat f now s macAddress rssi).response.status = 500) := by
  rw [update_decision FormatFloat f now s macAddress rssi device beacon hin hcount hall]
  have hl : result.LastRoomString = s.lastPosition.head?.getD "" := by
    simp [CalcLastPosition.LastRoomString,
      queryCalcLastPosition_lastRoom beacon s.lastPosition result hres]
  have hne2 : result.RoomName ≠ result.LastRoomString := by rw [hl]; exact hne
  have hposts := decisionStep_transition_posts FormatFloat f s beacon result hsel hres havg hne2
  refine ⟨?_, ?_, ?_, ?_⟩
  · intro hp
    have hp2 : result.LastRoomString = "" := by
      rw [hl]
      rcases hp with hp | hp <;> simp [hp]
    rw [hposts, if_pos hp2]
    simp [String.append_assoc]
  · intro prior hp hpne
    have hp2 : result.LastRoomString ≠ "" := by
      rw [hl, hp]
      simpa using hpne
    rw [hposts, if_neg hp2]
    simp [String.append_assoc]
  · intro hd hi hc
    simp [decisionStep, hsel, hres, havg, hne2, hd, hi, hc, execErr, commit]
  · intro hfail
    have herr : ∃ e, execErr f.deleteLast.isSome f.insertLast = some e := by
      unfold execErr
      cases hd : f.deleteLast with
      | some e => simp
      | none =>
        cases hi : f.insertLast with
        | some e => simp
        | none => simp [hd, hi] at hfail
    obtain ⟨e, he⟩ := herr
    simp [decisionStep, hsel, hres, havg, hne2, he, rollback]

/-- C3, counterexample. First run: every room reports no signal and
`lastPosition` holds a row, with an empty room name; no notification is
dispatched and the row stays. Second run: every room reports no signal, the
last position is A and the delete of `lastPosition` fails; the "lost"
notification is dispatched and the answer is `200`, but `lastPosition` still
holds A. -/
theorem lost_round_leaves_lastPosition :
    (exNoSignalUnnamedPrior.lastPosition = [""] ∧
      queryCalcLastPosition
        [⟨"A", -9999, 0⟩, ⟨"B", -9999, 0⟩, ⟨"C", -9999, 10⟩] [""]
        = some ⟨"A", -9999, some ""⟩ ∧
      updateBeaconFunc exFormat noFaults 10 exNoSignalUnnamedPrior "m3" "" =
        ⟨⟨[⟨"A", -9999, 0⟩, ⟨"B", -9999, 0⟩, ⟨"C", -9999, 10⟩], exDevices, [""]⟩,
          [], ⟨200, .empty⟩, .committed⟩) ∧
    (exDeleteLastFails.deleteLast ≠ none ∧
      updateBeaconFunc exFormat exDeleteLastFails 10 exNoSignal "m3" "" =
        ⟨exNoSignal, [.NotifyCat "ﾈｺﾁｬﾝを見失いました…\n最後にいた場所: A"],
          ⟨200, .empty⟩, .commitFailed⟩ ∧
      exNoSignal.lastPosition = ["A"]) := by
  decide!

/-- C3, amended: a request that reaches the decision with a winning average of
`-9999` while the first `lastPosition` row names the room `prior`, when
`prior` is not the empty string, dispatches exactly one "lost" notification
whose text ends with `prior` and answers `200`; `lastPosition` is empty
afterwards when the delete of `lastPosition` and the commit succeed, and the
store is the one before the request when either fails. When `prior` is the
empty string nothing is dispatched and `lastPosition` is left as it was. -/
theorem lost_notifies_and_clears (FormatFloat : ℚ → String) (f : Faults)
    (now : Int) (s : Store) (macAddress rssi : String) (device : Device)
    (beacon : List Beacon) (result : CalcLastPosition) (prior : String)
    (hin : ingestReadings f now s macAddress rssi = .ok (device, beacon))
    (hcount : f.count = none) (hall : rowsRoomCount now beacon = roomCount)
    (hsel : f.select = none)
    (hres : queryCalcLastPosition beacon s.lastPosition = some result)
    (havg : result.AvgRssi = -9999)
    (hprior : s.lastPosition.head? = some prior) :
    (prior ≠ "" →
      (updateBeaconFunc FormatFloat f now s macAddress rssi).posts =
        [.NotifyCat ("ﾈｺﾁｬﾝを見失いました…\n最後にいた場所: " ++ prior)] ∧
      (updateBeaconFunc FormatFloat f now s macAddress rssi).response = ⟨200, .empty⟩ ∧
      (f.deleteLast = none → f.commit = none →
        (updateBeaconFunc FormatFloat f now s macAddress rssi).tx = .committed ∧
        (updateBeaconFunc FormatFloat f now s macAddress rssi).store.lastPosition = []) ∧
      ((f.deleteLast ≠ none ∨ f.commit ≠ none) →
        (updateBeaconFunc FormatFloat f now s macAddress rssi).tx = .commitFailed ∧
        (updateBeaconFunc FormatFloat f now s macAddress rssi).store = s)) ∧
    (prior = "" →
      (updateBeaconFunc FormatFloat f now s macAddress rssi).posts = [] ∧
      (updateBeaconFunc FormatFloat f now s macAddress rssi).store.lastPosition
        = s.lastPosition) := by
  rw [update_decision FormatFloat f now s macAddress rssi device beacon hin hcount hall]
  have hl : result.LastRoomString = prior := by
    simp [CalcLastPosition.LastRoomString,
      queryCalcLastPosition_lastRoom beacon s.lastPosition result hres, hprior]
  constructor
  · intro hne
    have hl2 : result.LastRoomString ≠ "" := by rw [hl]; exact hne
    have hstep : decisionStep FormatFloat f s beacon =
        match f.deleteLast with
        | some _ => commit f true s ⟨beacon, s.devices, s.lastPosition⟩
            [.NotifyCat ("ﾈｺﾁｬﾝを見失いました…\n最後にいた場所: " ++ prior)]
        | none => commit f false s ⟨beacon, s.devices, []⟩
            [.NotifyCat ("ﾈｺﾁｬﾝを見失いました…\n最後にいた場所: " ++ prior)] := by
      unfold decisionStep
      rw [hsel]
      simp only [hres]
      rw [if_pos havg, if_pos hl2, hl]
    rw [hstep]
    refine ⟨?_, ?_, ?_, ?_⟩
    · split <;> exact commit_posts _ _ _ _ _
    · split <;> exact commit_response _ _ _ _ _
    · intro hd hc
      simp [hd, commit, execErr, hc]
    · intro hfail
      cases hd : f.deleteLast with
      | some e => simp [commit, execErr]
      | none =>
        cases hc : f.commit with
        | some e => simp [commit, execErr, hc]
        | none => simp [hd, hc] at hfail
  · intro he
    have hl2 : ¬ result.LastRoomString ≠ "" := by rw [hl, he]; simp
    have hstep : decisionStep FormatFloat f s beacon =
        commit f false s ⟨beacon, s.devices, s.lastPosition⟩ [] := by
      unfold decisionStep
      rw [hsel]
      simp only [hres]
      rw [if_pos havg, if_neg hl2]
    rw [hstep]
    refine ⟨commit_posts _ _ _ _ _, ?_⟩
    rcases commit_lastPosition f false s ⟨beacon, s.devices, s.lastPosition⟩ [] with h1 | h1
    · exact h1
    · exact h1

/-- C4: a request that reaches the decision with a winning average other than
`-9999` and a winning room equal to the prior room dispatches no notification
and leaves `lastPosition` as it was. -/
theorem same_room_changes_nothing (FormatFloat : ℚ → String) (f : Faults)
    (now : Int) (s : Store) (macAddress rssi : String) (device : Device)
    (beacon : List Beacon) (result : CalcLastPosition)
    (hin : ingestReadings f now s macAddress rssi = .ok (device, beacon))
    (hcount : f.count = none) (hall : rowsRoomCount now beacon = roomCount)
    (hsel : f.select = none)
    (hres : queryCalcLastPosition beacon s.lastPosition = some result)
    (havg : result.AvgRssi ≠ -9999)
    (heq : result.RoomName = result.LastRoomString) :
    (updateBeaconFunc FormatFloat f now s macAddress rssi).posts = [] ∧
    (updateBeaconFunc FormatFloat f now s macAddress rssi).store.lastPosition
      = s.lastPosition ∧
    (updateBeaconFunc FormatFloat f now s macAddress rssi).response = ⟨200, .empty⟩ ∧
    (f.commit = none →
      updateBeaconFunc FormatFloat f now s macAddress rssi =
        ⟨⟨beacon, s.devices, s.lastPosition⟩, [], ⟨200, .empty⟩, .committed⟩) := by
  rw [update_decision FormatFloat f now s macAddress rssi device beacon hin hcount hall]
  have h : decisionStep FormatFloat f s beacon =
      commit f false s ⟨beacon, s.devices, s.lastPosition⟩ [] := by
    unfold decisionStep
    rw [hsel]
    simp only [hres]
    rw [if_neg havg, if_neg (not_not.mpr heq)]
  rw [h]
  refine ⟨commit_posts _ _ _ _ _, ?_, commit_response _ _ _ _ _, ?_⟩
  · rcases commit_lastPosition f false s ⟨beacon, s.devices, s.lastPosition⟩ [] with h1 | h1
    · exact h1
    · exact h1
  · intro hc
    exact commit_ok f s _ [] hc

/-! ## The single-row invariant (C9) -/

/-- C9: if `lastPosition` has at most one row before a submit-readings
request, it has at most one row after it, whatever the storage faults and
whichever branch the handler takes. -/
theorem lastPosition_at_most_one_row (FormatFloat : ℚ → String) (f : Faults)
    (now : Int) (s : Store) (macAddress rssi : String)
    (h : s.lastPosition.length ≤ 1) :
    (updateBeaconFunc FormatFloat f now s macAddress rssi).store.lastPosition.length ≤ 1 := by
  unfold updateBeaconFunc
  split
  · next o ho =>
    rw [(ingest_error_frame f now s macAddress rssi o ho).1]
    exact h
  · next d beacon _ =>
    unfold countStep
    split
    · exact h
    · split
      · rcases commit_lastPosition f false s ⟨beacon, s.devices, s.lastPosition⟩ [] with h1 | h1
        · rw [h1]; exact h
        · rw [h1]; exact h
      · rcases decisionStep_lastPosition FormatFloat f s beacon with h1 | h1 | ⟨r, h1⟩
        · rw [h1]; exact h
        · rw [h1]; simp
        · rw [h1]; simp

/-! ## Witnesses of C1-C4, C9, C10 -/

/-- Witness of C1: room C reports, replacing its older reading, while room A
has two readings in the window and the reading of room B is too old: two
rooms are counted. -/
theorem too_few_rooms_commits_unchanged_witness :
    ingestReadings noFaults 100000000 exStaleRoom "m3" "-70"
      = .ok (⟨"C"⟩, [⟨"A", -50, 99000000⟩, ⟨"A", -60, 99000000⟩, ⟨"B", -70, 39999999⟩,
          ⟨"C", -70, 100000000⟩]) ∧
    rowsRoomCount 100000000 [⟨"A", -50, 99000000⟩, ⟨"A", -60, 99000000⟩,
      ⟨"B", -70, 39999999⟩, ⟨"C", -70, 100000000⟩] = 2 ∧
    rowsRoomCount 100000000 [⟨"A", -50, 99000000⟩, ⟨"A", -60, 99000000⟩,
      ⟨"B", -70, 39999999⟩, ⟨"C", -70, 100000000⟩] < roomCount ∧
    updateBeaconFunc exFormat noFaults 100000000 exStaleRoom "m3" "-70" =
      ⟨⟨[⟨"A", -50, 99000000⟩, ⟨"A", -60, 99000000⟩, ⟨"B", -70, 39999999⟩,
          ⟨"C", -70, 100000000⟩], exDevices, []⟩, [], ⟨200, .empty⟩, .committed⟩ :=
  ⟨by decide, by decide, by decide,
    (too_few_rooms_commits_unchanged exFormat noFaults 100000000 exStaleRoom "m3" "-70"
      ⟨"C"⟩ [⟨"A", -50, 99000000⟩, ⟨"A", -60, 99000000⟩, ⟨"B", -70, 39999999⟩,
        ⟨"C", -70, 100000000⟩] (by decide) rfl (by decide)).2.2.2.2 rfl⟩

/-- Witness of C10: room D reports while rooms A, B and C have a reading. -/
theorem too_many_rooms_commits_unchanged_witness :
    ingestReadings noFaults 10 exThreeRooms "m4" "-70"
      = .ok (⟨"D"⟩, [⟨"A", -50, 0⟩, ⟨"B", -70, 0⟩, ⟨"C", -70, 0⟩, ⟨"D", -70, 10⟩]) ∧
    roomCount < rowsRoomCount 10
      [⟨"A", -50, 0⟩, ⟨"B", -70, 0⟩, ⟨"C", -70, 0⟩, ⟨"D", -70, 10⟩] ∧
    (updateBeaconFunc exFormat noFaults 10 exThreeRooms "m4" "-70").posts = [] ∧
    (updateBeaconFunc exFormat noFaults 10 exThreeRooms "m4" "-70").store.lastPosition = [] :=
  ⟨by decide, by decide,
    (too_many_rooms_commits_unchanged exFormat noFaults 10 exThreeRooms "m4" "-70" ⟨"D"⟩
      [⟨"A", -50, 0⟩, ⟨"B", -70, 0⟩, ⟨"C", -70, 0⟩, ⟨"D", -70, 10⟩]
      (by decide) rfl (by decide)).2.1,
    (too_many_rooms_commits_unchanged exFormat noFaults 10 exThreeRooms "m4" "-70" ⟨"D"⟩
      [⟨"A", -50, 0⟩, ⟨"B", -70, 0⟩, ⟨"C", -70, 0⟩, ⟨"D", -70, 10⟩]
      (by decide) rfl (by decide)).2.2.1⟩

/-- Witness of the amended C2: room C completes the round and room A wins with
average `-55`, once with no last position ("found") and once with the last
position B ("moved"). -/
theorem transition_notifies_and_records_witness :
    queryCalcLastPosition
      [⟨"A", -50, 0⟩, ⟨"A", -60, 0⟩, ⟨"B", -70, 0⟩, ⟨"C", -80, 10⟩, ⟨"C", -90, 10⟩] []
      = some ⟨"A", -55, none⟩ ∧
    (updateBeaconFunc exFormat noFaults 10 exTwoRooms "m3" "-80,-90").posts =
      [.NotifyCat ("ﾈｺﾁｬﾝが見つかりました: " ++ "A" ++ "\nRSSI平均値: " ++ exFormat (-55))] ∧
    (updateBeaconFunc exFormat noFaults 10 exTwoRooms "m3" "-80,-90").store.lastPosition
      = ["A"] ∧
    queryCalcLastPosition
      [⟨"A", -50, 0⟩, ⟨"A", -60, 0⟩, ⟨"B", -70, 0⟩, ⟨"C", -80, 10⟩, ⟨"C", -90, 10⟩] ["B"]
      = some ⟨"A", -55, some "B"⟩ ∧
    (updateBeaconFunc exFormat noFaults 10 exTwoRoomsAtB "m3" "-80,-90").posts =
      [.NotifyCat ("ﾈｺﾁｬﾝが移動しました: " ++ "A" ++ "\nRSSI平均値: " ++ exFormat (-55))] ∧
    (updateBeaconFunc exFormat noFaults 10 exTwoRoomsAtB "m3" "-80,-90").store.lastPosition
      = ["A"] :=
  ⟨by decide!,
    (transition_notifies_and_records exFormat noFaults 10 exTwoRooms "m3" "-80,-90" ⟨"C"⟩
      [⟨"A", -50, 0⟩, ⟨"A", -60, 0⟩, ⟨"B", -70, 0⟩, ⟨"C", -80, 10⟩, ⟨"C", -90, 10⟩]
      ⟨"A", -55, none⟩ (by decide) rfl (by decide) rfl (by decide!) (by decide!)
      (by decide)).1 (Or.inl rfl),
    ((transition_notifies_and_records exFormat noFaults 10 exTwoRooms "m3" "-80,-90" ⟨"C"⟩
      [⟨"A", -50, 0⟩, ⟨"A", -60, 0⟩, ⟨"B", -70, 0⟩, ⟨"C", -80, 10⟩, ⟨"C", -90, 10⟩]
      ⟨"A", -55, none⟩ (by decide) rfl (by decide) rfl (by decide!) (by decide!)
      (by decide)).2.2.1 rfl rfl rfl).2,
    by decide!,
    (transition_notifies_and_records exFormat noFaults 10 exTwoRoomsAtB "m3" "-80,-90" ⟨"C"⟩
      [⟨"A", -50, 0⟩, ⟨"A", -60, 0⟩, ⟨"B", -70, 0⟩, ⟨"C", -80, 10⟩, ⟨"C", -90, 10⟩]
      ⟨"A", -55, some "B"⟩ (by decide) rfl (by decide) rfl (by decide!) (by decide!)
      (by decide)).2.1 "B" rfl (by decide),
    ((transition_notifies_and_records exFormat noFaults 10 exTwoRoomsAtB "m3" "-80,-90" ⟨"C"⟩
      [⟨"A", -50, 0⟩, ⟨"A", -60, 0⟩, ⟨"B", -70, 0⟩, ⟨"C", -80, 10⟩, ⟨"C", -90, 10⟩]
      ⟨"A", -55, some "B"⟩ (by decide) rfl (by decide) rfl (by decide!) (by decide!)
      (by decide)).2.2.1 rfl rfl rfl).2⟩

/-- Witness of the amended C3: room C completes a round in which every room
reports no signal, the last position being A. -/
theorem lost_notifies_and_clears_witness :
    queryCalcLastPosition
      [⟨"A", -9999, 0⟩, ⟨"B", -9999, 0⟩, ⟨"C", -9999, 10⟩] ["A"]
      = some ⟨"A", -9999, some "A"⟩ ∧
    (updateBeaconFunc exFormat noFaults 10 exNoSignal "m3" "").posts =
      [.NotifyCat ("ﾈｺﾁｬﾝを見失いました…\n最後にいた場所: " ++ "A")] ∧
    (updateBeaconFunc exFormat noFaults 10 exNoSignal "m3" "").store.lastPosition = [] :=
  ⟨by decide!,
    ((lost_notifies_and_clears exFormat noFaults 10 exNoSignal "m3" "" ⟨"C"⟩
      [⟨"A", -9999, 0⟩, ⟨"B", -9999, 0⟩, ⟨"C", -9999, 10⟩] ⟨"A", -9999, some "A"⟩ "A"
      (by decide) rfl (by decide) rfl (by decide!) (by decide!) rfl).1 (by decide)).1,
    (((lost_notifies_and_clears exFormat noFaults 10 exNoSignal "m3" "" ⟨"C"⟩
      [⟨"A", -9999, 0⟩, ⟨"B", -9999, 0⟩, ⟨"C", -9999, 10⟩] ⟨"A", -9999, some "A"⟩ "A"
      (by decide) rfl (by decide) rfl (by decide!) (by decide!) rfl).1 (by decide)).2.2.1
      rfl rfl).2⟩

/-- Witness of C4: room C completes the round, room A wins and is the last
position already. -/
theorem same_room_changes_nothing_witness :
    queryCalcLastPosition
      [⟨"A", -50, 0⟩, ⟨"A", -60, 0⟩, ⟨"B", -70, 0⟩, ⟨"C", -80, 10⟩, ⟨"C", -90, 10⟩] ["A"]
      = some ⟨"A", -55, some "A"⟩ ∧
    (updateBeaconFunc exFormat noFaults 10 exTwoRoomsAtA "m3" "-80,-90").posts = [] ∧
    (updateBeaconFunc exFormat noFaults 10 exTwoRoomsAtA "m3" "-80,-90").store.lastPosition
      = ["A"] :=
  ⟨by decide!,
    (same_room_changes_nothing exFormat noFaults 10 exTwoRoomsAtA "m3" "-80,-90" ⟨"C"⟩
      [⟨"A", -50, 0⟩, ⟨"A", -60, 0⟩, ⟨"B", -70, 0⟩, ⟨"C", -80, 10⟩, ⟨"C", -90, 10⟩]
      ⟨"A", -55, some "A"⟩ (by decide) rfl (by decide) rfl (by decide!) (by decide!)
      (by decide)).1,
    (same_room_changes_nothing exFormat noFaults 10 exTwoRoomsAtA "m3" "-80,-90" ⟨"C"⟩
      [⟨"A", -50, 0⟩, ⟨"A", -60, 0⟩, ⟨"B", -70, 0⟩, ⟨"C", -80, 10⟩, ⟨"C", -90, 10⟩]
      ⟨"A", -55, some "A"⟩ (by decide) rfl (by decide) rfl (by decide!) (by decide!)
      (by decide)).2.1⟩

/-- Witness of C9: a transition while the insert into `lastPosition` succeeds. -/
theorem lastPosition_at_most_one_row_witness :
    exTwoRoomsAtA.lastPosition.length ≤ 1 ∧
    (updateBeaconFunc exFormat noFaults 10 exTwoRoomsAtA "m3" "-10").store.lastPosition.length
      ≤ 1 :=
  ⟨by decide,
    lastPosition_at_most_one_row exFormat noFaults 10 exTwoRoomsAtA "m3" "-10" (by decide)⟩

/-! ## Unknown devices (C5) -/

/-- C5: for the device `"zz"`, absent from the directory, `notifyBootStatusFunc`
answers `400` but `updateBeaconFunc` answers `500`; both leave the store as it
was and dispatch nothing. -/
theorem unknown_device_update_answers_500 :
    exTwoRooms.devices.find? (fun d => d.macAddress = "zz") = none ∧
    updateBeaconFunc exFormat noFaults 10 exTwoRooms "zz" "-80,-90" =
      ⟨exTwoRooms, [], ⟨500, .json "sql: no rows in result set"⟩, .rolledBack⟩ ∧
    notifyBootStatusFunc noFaults exTwoRooms "zz" =
      ⟨exTwoRooms, [], ⟨400, .json "sql: no rows in result set"⟩, .notBegun⟩ := by
  decide

/-! ## Notification and persistence order (C6) -/

/-- C6, counterexample: with rooms A and B reported and no last position, room
C completes the round and the insert into `lastPosition` fails; the "found"
notification has been dispatched and the transaction is rolled back. -/
theorem notification_sent_then_rolled_back :
    exInsertLastFails.insertLast ≠ none ∧
    (updateBeaconFunc exFormat exInsertLastFails 10 exTwoRooms "m3" "-80,-90").posts =
      [.NotifyCat "ﾈｺﾁｬﾝが見つかりました: A\nRSSI平均値: integer"] ∧
    (updateBeaconFunc exFormat exInsertLastFails 10 exTwoRooms "m3" "-80,-90").tx
      = .rolledBack ∧
    (updateBeaconFunc exFormat exInsertLastFails 10 exTwoRooms "m3" "-80,-90").store
      = exTwoRooms := by
  decide!

/-- C6, amended: a request that dispatches a notification has seen every
storage call up to the aggregate query succeed and a full round of rooms; the
notifications are the same whatever the results of the two `lastPosition`
statements and of the commit, which run after the dispatch. Such a request
ends in a rollback, the store as before and the answer `500`, when it is a
transition (winning average other than `-9999`) whose `lastPosition` delete
or insert fails, and ends with a failed commit, the store as before, when it
is a "lost" decision whose `lastPosition` delete or commit fails. -/
theorem notification_after_ingest_before_position (FormatFloat : ℚ → String)
    (f : Faults) (now : Int) (s : Store) (macAddress rssi : String)
    (h : (updateBeaconFunc FormatFloat f now s macAddress rssi).posts ≠ []) :
    (f.beginTx = none ∧ f.lock = none ∧ f.lookup = none ∧ f.deleteBeacon = none ∧
      f.count = none ∧ f.select = none) ∧
    (∃ device beacon result,
      ingestReadings f now s macAddress rssi = .ok (device, beacon) ∧
      rowsRoomCount now beacon = roomCount ∧
      queryCalcLastPosition beacon s.lastPosition = some result) ∧
    (∀ d i c : Option String,
      (updateBeaconFunc FormatFloat (f.withPosition d i c) now s macAddress rssi).posts =
        (updateBeaconFunc FormatFloat f now s macAddress rssi).posts) ∧
    (∀ (device : Device) (beacon : List Beacon) (result : CalcLastPosition),
      ingestReadings f now s macAddress rssi = .ok (device, beacon) →
      queryCalcLastPosition beacon s.lastPosition = some result →
      (result.AvgRssi ≠ -9999 → (f.deleteLast ≠ none ∨ f.insertLast ≠ none) →
        (updateBeaconFunc FormatFloat f now s macAddress rssi).tx = .rolledBack ∧
        (updateBeaconFunc FormatFloat f now s macAddress rssi).store = s ∧
        (updateBeaconFunc FormatFloat f now s macAddress rssi).response.status = 500) ∧
      (result.AvgRssi = -9999 → (f.deleteLast ≠ none ∨ f.commit ≠ none) →
        (updateBeaconFunc FormatFloat f now s macAddress rssi).tx = .commitFailed ∧
        (updateBeaconFunc FormatFloat f now s macAddress rssi).store = s)) := by
  have hreach : ∃ device beacon,
      ingestReadings f now s macAddress rssi = .ok (device, beacon) ∧
      f.count = none ∧ rowsRoomCount now beacon = roomCount ∧ f.select = none ∧
      (decisionStep FormatFloat f s beacon).posts ≠ [] := by
    unfold updateBeaconFunc at h
    split at h
    · next o ho => exact absurd (ingest_error_frame f now s macAddress rssi o ho).2.1 h
    · next d beacon hin =>
      refine ⟨d, beacon, hin, ?_⟩
      unfold countStep at h
      split at h
      · exact absurd rfl h
      · next hc =>
        split at h
        · exact absurd (commit_posts _ _ _ _ _) h
        · next hne =>
          refine ⟨hc, not_not.mp hne, ?_, h⟩
          unfold decisionStep at h
          split at h
          · exact absurd rfl h
          · next hs => exact hs
  obtain ⟨d0, b0, hin0, hcount, hall, hsel, hdec⟩ := hreach
  refine ⟨?_, ?_, ?_, ?_⟩
  · obtain ⟨hb, hl, hk, hd⟩ := ingest_ok_faults f now s macAddress rssi d0 b0 hin0
    exact ⟨hb, hl, hk, hd, hcount, hsel⟩
  · cases hq : queryCalcLastPosition b0 s.lastPosition with
    | none =>
      exfalso
      apply hdec
      simp [decisionStep, hsel, hq, rollback]
    | some r => exact ⟨d0, b0, r, hin0, hall, hq⟩
  · intro d i c
    unfold updateBeaconFunc
    rw [ingestReadings_withPosition]
    split
    · rfl
    · next dv beacon hin =>
      have hc : (f.withPosition d i c).count = f.count := rfl
      unfold countStep
      rw [hc]
      split
      · rfl
      · split
        · simp [commit_posts]
        · exact decisionStep_posts_withPosition FormatFloat f d i c s beacon
  · intro device beacon result hin hres
    have hb : beacon = b0 := by
      rw [hin0] at hin
      cases hin
      rfl
    subst hb
    rw [update_decision FormatFloat f now s macAddress rssi device beacon hin hcount hall]
    obtain ⟨hlost, htrans⟩ := decisionStep_posts_ne_nil FormatFloat f s beacon result hres hdec
    constructor
    · intro havg hfail
      exact decisionStep_transition_fails FormatFloat f s beacon result hsel hres havg
        (htrans havg) hfail
    · intro havg hfail
      exact decisionStep_lost_fails FormatFloat f s beacon result hsel hres havg
        (hlost havg) hfail

/-- Witness of the amended C6: the run of the counterexample, which ends in a
rollback after the "found" notification. -/
theorem notification_after_ingest_before_position_witness :
    (updateBeaconFunc exFormat exInsertLastFails 10 exTwoRooms "m3" "-80,-90").posts ≠ [] ∧
    exInsertLastFails.select = none ∧
    (updateBeaconFunc exFormat noFaults 10 exTwoRooms "m3" "-80,-90").posts =
      (updateBeaconFunc exFormat exInsertLastFails 10 exTwoRooms "m3" "-80,-90").posts ∧
    (updateBeaconFunc exFormat exInsertLastFails 10 exTwoRooms "m3" "-80,-90").tx
      = .rolledBack ∧
    (updateBeaconFunc exFormat exInsertLastFails 10 exTwoRooms "m3" "-80,-90").store
      = exTwoRooms :=
  ⟨by decide!,
    (notification_after_ingest_before_position exFormat exInsertLastFails 10 exTwoRooms
      "m3" "-80,-90" (by decide!)).1.2.2.2.2.2,
    (notification_after_ingest_before_position exFormat exInsertLastFails 10 exTwoRooms
      "m3" "-80,-90" (by decide!)).2.2.1 none none none,
    (((notification_after_ingest_before_position exFormat exInsertLastFails 10 exTwoRooms
      "m3" "-80,-90" (by decide!)).2.2.2 ⟨"C"⟩
      [⟨"A", -50, 0⟩, ⟨"A", -60, 0⟩, ⟨"B", -70, 0⟩, ⟨"C", -80, 10⟩, ⟨"C", -90, 10⟩]
      ⟨"A", -55, none⟩ (by decide) (by decide!)).1 (by decide!)
      (Or.inr (by decide))).1,
    (((notification_after_ingest_before_position exFormat exInsertLastFails 10 exTwoRooms
      "m3" "-80,-90" (by decide!)).2.2.2 ⟨"C"⟩
      [⟨"A", -50, 0⟩, ⟨"A", -60, 0⟩, ⟨"B", -70, 0⟩, ⟨"C", -80, 10⟩, ⟨"C", -90, 10⟩]
      ⟨"A", -55, none⟩ (by decide) (by decide!)).1 (by decide!)
      (Or.inr (by decide))).2.1⟩

/-! ## The winning room (C7) -/

/-- C7, counterexample: room A has the readings `-50`, `-50` and `-51`, room C
completes the round and room A wins; its mean is `-151/3`, the reported
average is the `float64` `-7083786913884843 / 2^47`, which is not that mean. -/
theorem reported_average_is_not_the_mean :
    ingestReadings noFaults 10 exThirds "m3" "-80" = .ok (⟨"C"⟩,
      [⟨"A", -50, 0⟩, ⟨"A", -50, 0⟩, ⟨"A", -51, 0⟩, ⟨"B", -70, 0⟩, ⟨"C", -80, 10⟩]) ∧
    rowsRoomCount 10
      [⟨"A", -50, 0⟩, ⟨"A", -50, 0⟩, ⟨"A", -51, 0⟩, ⟨"B", -70, 0⟩, ⟨"C", -80, 10⟩]
      = roomCount ∧
    queryCalcLastPosition
      [⟨"A", -50, 0⟩, ⟨"A", -50, 0⟩, ⟨"A", -51, 0⟩, ⟨"B", -70, 0⟩, ⟨"C", -80, 10⟩] []
      = some ⟨"A", -7083786913884843 / 140737488355328, none⟩ ∧
    avgRssi
      [⟨"A", -50, 0⟩, ⟨"A", -50, 0⟩, ⟨"A", -51, 0⟩, ⟨"B", -70, 0⟩, ⟨"C", -80, 10⟩] "A"
      = -151 / 3 ∧
    (-7083786913884843 / 140737488355328 : ℚ) ≠ -151 / 3 := by
  decide!

/-- C7, amended: when the handler reaches the count, and so whenever the
decision runs, the aggregate query returns a row; its room is a room of table
`beacon`, no room of `beacon` has a greater mean of readings (sum of the
`rssi` of its rows over their number) than that room, and the reported
average is the `float64` nearest to the mean of that room. -/
theorem winner_has_greatest_average (f : Faults) (now : Int) (s : Store)
    (macAddress rssi : String) (device : Device) (beacon : List Beacon)
    (hin : ingestReadings f now s macAddress rssi = .ok (device, beacon)) :
    ∃ result, queryCalcLastPosition beacon s.lastPosition = some result ∧
      (∃ b ∈ beacon, b.roomname = result.RoomName) ∧
      result.AvgRssi = toFloat64
        (((((beacon.filter (fun x => x.roomname = result.RoomName)).map
            (fun x => x.rssi)).sum : Int) : ℚ) /
          (((beacon.filter (fun x => x.roomname = result.RoomName)).map
            (fun x => x.rssi)).length : ℚ)) ∧
      ∀ b ∈ beacon,
        (((((beacon.filter (fun x => x.roomname = b.roomname)).map
            (fun x => x.rssi)).sum : Int) : ℚ) /
          (((beacon.filter (fun x => x.roomname = b.roomname)).map
            (fun x => x.rssi)).length : ℚ)) ≤
        (((((beacon.filter (fun x => x.roomname = result.RoomName)).map
            (fun x => x.rssi)).sum : Int) : ℚ) /
          (((beacon.filter (fun x => x.roomname = result.RoomName)).map
            (fun x => x.rssi)).length : ℚ)) := by
  have hne : beacon ≠ [] := ingest_ok_ne_nil f now s macAddress rssi device beacon hin
  have hg : groupByRoomname beacon ≠ [] := by
    obtain ⟨b, hb⟩ := List.exists_mem_of_ne_nil beacon hne
    intro hnil
    have hmem : (b.roomname, avgRssi beacon b.roomname) ∈ groupByRoomname beacon := by
      unfold groupByRoomname
      exact List.mem_map.mpr ⟨b.roomname,
        List.mem_dedup.mpr (List.mem_map.mpr ⟨b, hb, rfl⟩), rfl⟩
    rw [hnil] at hmem
    exact absurd hmem (List.not_mem_nil _)
  obtain ⟨m, hm, hmem, hmax⟩ := orderByAvgDescLimit1_greatest (groupByRoomname beacon) hg
  have hm2 : m.2 = avgRssi beacon m.1 := by
    unfold groupByRoomname at hmem
    obtain ⟨r, _, hrm⟩ := List.mem_map.mp hmem
    rw [← hrm]
  refine ⟨⟨m.1, toFloat64 m.2, s.lastPosition.head?⟩,
    by simp [queryCalcLastPosition, hm], ?_, ?_, ?_⟩
  · unfold groupByRoomname at hmem
    obtain ⟨r, hr, hrm⟩ := List.mem_map.mp hmem
    obtain ⟨b, hb, hbr⟩ := List.mem_map.mp (List.mem_dedup.mp hr)
    refine ⟨b, hb, ?_⟩
    rw [← hrm]
    exact hbr
  · rw [avgRssi_eq] at hm2
    simp only [hm2]
  · intro b hb
    have hbm : (b.roomname, avgRssi beacon b.roomname) ∈ groupByRoomname beacon := by
      unfold groupByRoomname
      exact List.mem_map.mpr ⟨b.roomname,
        List.mem_dedup.mpr (List.mem_map.mpr ⟨b, hb, rfl⟩), rfl⟩
    have hle := hmax _ hbm
    rw [hm2] at hle
    simp only [avgRssi_eq] at hle
    exact hle

/-- Witness of the amended C7: room C completes the round of rooms A and B;
room A wins with mean `-151/3`, above the means `-70` of B and `-80` of C, and
the reported average is the `float64` nearest to `-151/3`. -/
theorem winner_has_greatest_average_witness :
    ingestReadings noFaults 10 exThirds "m3" "-80" = .ok (⟨"C"⟩,
      [⟨"A", -50, 0⟩, ⟨"A", -50, 0⟩, ⟨"A", -51, 0⟩, ⟨"B", -70, 0⟩, ⟨"C", -80, 10⟩]) ∧
    groupByRoomname
      [⟨"A", -50, 0⟩, ⟨"A", -50, 0⟩, ⟨"A", -51, 0⟩, ⟨"B", -70, 0⟩, ⟨"C", -80, 10⟩]
      = [("A", -151 / 3), ("B", -70), ("C", -80)] ∧
    toFloat64 (-151 / 3) = -7083786913884843 / 140737488355328 ∧
    queryCalcLastPosition
      [⟨"A", -50, 0⟩, ⟨"A", -50, 0⟩, ⟨"A", -51, 0⟩, ⟨"B", -70, 0⟩, ⟨"C", -80, 10⟩]
      exThirds.lastPosition = some ⟨"A", -7083786913884843 / 140737488355328, none⟩ ∧
    ∃ result, queryCalcLastPosition
        [⟨"A", -50, 0⟩, ⟨"A", -50, 0⟩, ⟨"A", -51, 0⟩, ⟨"B", -70, 0⟩, ⟨"C", -80, 10⟩]
        exThirds.lastPosition = some result ∧
      (∃ b ∈ [(⟨"A", -50, 0⟩ : Beacon), ⟨"A", -50, 0⟩, ⟨"A", -51, 0⟩, ⟨"B", -70, 0⟩,
          ⟨"C", -80, 10⟩], b.roomname = result.RoomName) :=
  ⟨by decide, by decide!, by decide!, by decide!,
    match winner_has_greatest_average noFaults 10 exThirds "m3" "-80" ⟨"C"⟩
      [⟨"A", -50, 0⟩, ⟨"A", -50, 0⟩, ⟨"A", -51, 0⟩, ⟨"B", -70, 0⟩, ⟨"C", -80, 10⟩]
      (by decide) with
    | ⟨result, hq, hroom, _, _⟩ => ⟨result, hq, hroom⟩⟩

/-! ## The empty reading list (C8) -/

/-- C8: for every store, device, clock and storage faults, a request with an
empty reading list and a request with the single reading `-9999` have the same
outcome: the same store, the same notifications, the same response and the
same transaction end. -/
theorem empty_list_same_as_sentinel (FormatFloat : ℚ → String) (f : Faults)
    (now : Int) (s : Store) (macAddress : String) :
    rssiArray "" = [] ∧ rssiArray "-9999" = [-9999] ∧
    updateBeaconFunc FormatFloat f now s macAddress "" =
      updateBeaconFunc FormatFloat f now s macAddress "-9999" := by
  have h0 : rssiArray "" = [] := by decide
  have h1 : rssiArray "-9999" = [-9999] := by decide
  refine ⟨h0, h1, ?_⟩
  have hins : ∀ r b, insertReadings f r now [] b = insertReadings f r now [-9999] b := by
    intro r b
    simp only [insertReadings, insertLoop, List.length_nil, List.length_cons, ne_eq,
      not_true_eq_false, if_false, Nat.zero_add, Nat.succ_ne_zero, not_false_eq_true, if_true]
  have hing : ingestReadings f now s macAddress "" =
      ingestReadings f now s macAddress "-9999" := by
    unfold ingestReadings
    rw [h0, h1]
    simp only [hins]
  unfold updateBeaconFunc
  rw [hing]

end Tracker

